import Mathlib

/-!
Shallow embedding of `spring/exporter.go` from KalypsoCloud/spring_exporter.

The exporter's collection cycle (`collect`) issues one HTTP GET, emits a
`response_duration` gauge and an `up` gauge to the metrics channel, then, on a
successful 200 response whose body decodes as a flat string-to-float64 JSON
map, emits one untyped measurement per key with the key sanitized by
`keyToSnake` (regexp `[^a-zA-Z0-9:_]` replaced by `_`).

The embedding determinizes the environment of one cycle: whether request
construction succeeded, the fetch outcome (transport error, or a response with
a status code and a body-read outcome), and the elapsed duration. The channel
becomes an ordered list of emitted measurements.
-/

namespace spring

/-- A character admitted by the exporter's key regexp: the complement of
`keyRegExp = [^a-zA-Z0-9:_]` in `exporter.go` line 20. -/
def isAllowedChar (c : Char) : Bool :=
  (('a' ≤ c && c ≤ 'z') || ('A' ≤ c && c ≤ 'Z') || ('0' ≤ c && c ≤ '9')
    || c == ':' || c == '_')

/-- Action of `keyRegExp.ReplaceAllString(key, "_")` on a single rune: the
regexp is a one-character class, so each disallowed rune is replaced by one
underscore and allowed runes are untouched. -/
def sanitizeChar (c : Char) : Char :=
  if isAllowedChar c then c else '_'

/-- `keyToSnake` from `exporter.go` lines 130-132: replace every character
outside `[a-zA-Z0-9:_]` with `_`. -/
def keyToSnake (key : String) : String :=
  String.mk (key.data.map sanitizeChar)

/-- Prometheus value kinds used by the exporter: `GaugeValue` for the two
meta measurements, `UntypedValue` for payload measurements. -/
inductive ValueKind where
  | gauge
  | untyped
deriving DecidableEq

/-- One measurement delivered on the channel: fully-qualified name, help
text, value kind and numeric value (float64 modelled as ℚ; the exporter only
passes values through, it never computes with them). -/
structure Metric where
  name : String
  help : String
  kind : ValueKind
  value : ℚ
deriving DecidableEq

/-- Help string of the `up` descriptor (`exporter.go` line 47). -/
def upHelp : String := "Could spring endpoint be reached"

/-- Help string of the `response_duration` descriptor (`exporter.go` line 52). -/
def durationHelp : String := "How long the spring endpoint took to deliver the metrics"

/-- `prometheus.BuildFQName(namespace, "", name)`: empty name gives the empty
string, otherwise the namespace (when non-empty) is prefixed with `_`. -/
def fqName (ns name : String) : String :=
  if name = "" then "" else if ns = "" then name else ns ++ "_" ++ name

/-- The `response_duration` gauge emitted at `exporter.go` line 86. -/
def durationMetric (ns : String) (secs : ℚ) : Metric :=
  ⟨fqName ns "response_duration", durationHelp, ValueKind.gauge, secs⟩

/-- The `up` gauge emitted at `exporter.go` lines 89 and 92. -/
def upMetric (ns : String) (v : ℚ) : Metric :=
  ⟨fqName ns "up", upHelp, ValueKind.gauge, v⟩

/-- One payload measurement (`exporter.go` lines 116-123): name built from the
sanitized key, help text the original key, untyped kind. -/
def payloadMetric (ns : String) (kv : String × ℚ) : Metric :=
  ⟨fqName ns (keyToSnake kv.1), kv.1, ValueKind.untyped, kv.2⟩

/-- JSON values, as far as `json.Unmarshal` distinguishes them when decoding
into `jsonData = map[string]float64` (`exporter.go` lines 71, 104-107). -/
inductive Json where
  | null
  | boolean (b : Bool)
  | num (q : ℚ)
  | str (s : String)
  | arr (xs : List Json)
  | obj (fields : List (String × Json))

/-- The numeric content of a JSON value, when it is a number. -/
def numVal : Json → Option ℚ
  | Json.num q => some q
  | _ => none

/-- Insert a key into an association list the way repeated keys of a JSON
object land in a Go map: a later binding overwrites an earlier one, first
occurrence keeps its position. -/
def upsert (l : List (String × ℚ)) (k : String) (v : ℚ) : List (String × ℚ) :=
  match l with
  | [] => [(k, v)]
  | (k', v') :: rest => if k' = k then (k, v) :: rest else (k', v') :: upsert rest k v

/-- Decode the fields of a JSON object into a string-to-float map, failing as
soon as a value is not a JSON number (Go raises an UnmarshalTypeError). -/
def decodeFields : List (String × Json) → List (String × ℚ) → Option (List (String × ℚ))
  | [], acc => some acc
  | (k, j) :: rest, acc =>
    match numVal j with
    | some q => decodeFields rest (upsert acc k q)
    | none => none

/-- `json.Unmarshal(body, &data)` with `data : map[string]float64`
(`exporter.go` lines 104-107). The body is given up to JSON parsing:
`none` stands for bytes that are not syntactically valid JSON. Per the
documented `encoding/json` semantics, the JSON literal `null` is accepted and
leaves the map nil (decoded here as the empty map); an object is accepted
exactly when every value is a number; any other JSON value is a type error. -/
def goUnmarshalMap : Option Json → Except Unit (List (String × ℚ))
  | none => Except.error ()
  | some Json.null => Except.ok []
  | some (Json.obj fields) =>
    match decodeFields fields [] with
    | some m => Except.ok m
    | none => Except.error ()
  | some _ => Except.error ()

/-- Outcome of `e.client.Do(req)` (`exporter.go` line 85): either a
transport-level failure (non-nil error, no response), or a response carrying a
status code and a body whose `ioutil.ReadAll` either fails or yields bytes
(given up to JSON parsing, `none` = not valid JSON). -/
inductive FetchResult where
  | transportError
  | response (statusCode : Nat) (bodyRead : Except Unit (Option Json))

/-- The environment of one collection cycle: whether `http.NewRequest`
succeeded and with what fetch outcome, and the elapsed seconds measured by
`time.Since(startTime).Seconds()`. -/
structure CycleEnv where
  construction : Except Unit FetchResult
  elapsed : ℚ

/-- The errors `collect` can return, one per return site. -/
inductive CollectError where
  | constructionError
  | transportError
  | readError
  | statusError (code : Nat)
  | parseError
deriving DecidableEq

/-- `(*Exporter).collect` (`exporter.go` lines 76-127): the ordered list of
measurements sent on `ch` paired with the returned error.

Control flow of the source: request construction failure returns before any
send; otherwise the duration gauge is sent, then on transport error the up
gauge with 0 is sent and the cycle errors; otherwise up with 1 is sent, the
body is read (a read failure returns a read error), then the status code is
checked against 200, then the body is unmarshalled, and finally one untyped
measurement per key of the decoded map is sent. -/
def collect (ns : String) (env : CycleEnv) : List Metric × Option CollectError :=
  match env.construction with
  | Except.error _ => ([], some CollectError.constructionError)
  | Except.ok fetch =>
    match fetch with
    | FetchResult.transportError =>
      ([durationMetric ns env.elapsed, upMetric ns 0], some CollectError.transportError)
    | FetchResult.response status bodyRead =>
      let meta := [durationMetric ns env.elapsed, upMetric ns 1]
      match bodyRead with
      | Except.error _ => (meta, some CollectError.readError)
      | Except.ok body =>
        if status ≠ 200 then (meta, some (CollectError.statusError status))
        else
          match goUnmarshalMap body with
          | Except.error _ => (meta, some CollectError.parseError)
          | Except.ok data => (meta ++ data.map (payloadMetric ns), none)

/-- Recognizes the `up` meta measurement of namespace `ns`: the gauge built
from the `up` descriptor (name and help from `exporter.go` lines 45-49). -/
def isUpMeta (ns : String) (m : Metric) : Bool :=
  m.help == upHelp && m.name == fqName ns "up" && m.kind == ValueKind.gauge

/-- Recognizes the `response_duration` meta measurement of namespace `ns`
(name and help from `exporter.go` lines 50-54). -/
def isDurationMeta (ns : String) (m : Metric) : Bool :=
  m.help == durationHelp && m.name == fqName ns "response_duration"
    && m.kind == ValueKind.gauge

/-- Recognizes a payload measurement: the exporter sends payload values with
`prometheus.UntypedValue` and the meta measurements with `GaugeValue`. -/
def isPayload (m : Metric) : Bool :=
  m.kind == ValueKind.untyped

/-! ### Basic lemmas about the measurement constructors -/

lemma isUpMeta_durationMetric (ns : String) (d : ℚ) :
    isUpMeta ns (durationMetric ns d) = false := by
  simp [isUpMeta, durationMetric, durationHelp, upHelp]

lemma isUpMeta_upMetric (ns : String) (v : ℚ) :
    isUpMeta ns (upMetric ns v) = true := by
  simp [isUpMeta, upMetric]

lemma isUpMeta_payloadMetric (ns ns' : String) (kv : String × ℚ) :
    isUpMeta ns (payloadMetric ns' kv) = false := by
  simp [isUpMeta, payloadMetric]

lemma isDurationMeta_durationMetric (ns : String) (d : ℚ) :
    isDurationMeta ns (durationMetric ns d) = true := by
  simp [isDurationMeta, durationMetric]

lemma isDurationMeta_upMetric (ns : String) (v : ℚ) :
    isDurationMeta ns (upMetric ns v) = false := by
  simp [isDurationMeta, upMetric, durationHelp, upHelp]

lemma isDurationMeta_payloadMetric (ns ns' : String) (kv : String × ℚ) :
    isDurationMeta ns (payloadMetric ns' kv) = false := by
  simp [isDurationMeta, payloadMetric]

lemma isPayload_durationMetric (ns : String) (d : ℚ) :
    isPayload (durationMetric ns d) = false := by
  simp [isPayload, durationMetric]

lemma isPayload_upMetric (ns : String) (v : ℚ) :
    isPayload (upMetric ns v) = false := by
  simp [isPayload, upMetric]

lemma isPayload_payloadMetric (ns : String) (kv : String × ℚ) :
    isPayload (payloadMetric ns kv) = true := by
  simp [isPayload, payloadMetric]

lemma filter_isUpMeta_payload (ns : String) (data : List (String × ℚ)) :
    (data.map (payloadMetric ns)).filter (isUpMeta ns) = [] := by
  simp only [List.filter_eq_nil_iff]
  intro m hm
  obtain ⟨kv, _, rfl⟩ := List.mem_map.mp hm
  simp [isUpMeta_payloadMetric]

lemma filter_isDurationMeta_payload (ns : String) (data : List (String × ℚ)) :
    (data.map (payloadMetric ns)).filter (isDurationMeta ns) = [] := by
  simp only [List.filter_eq_nil_iff]
  intro m hm
  obtain ⟨kv, _, rfl⟩ := List.mem_map.mp hm
  simp [isDurationMeta_payloadMetric]

lemma filter_isPayload_payload (ns : String) (data : List (String × ℚ)) :
    (data.map (payloadMetric ns)).filter isPayload = data.map (payloadMetric ns) := by
  rw [List.filter_eq_self]
  intro m hm
  obtain ⟨kv, _, rfl⟩ := List.mem_map.mp hm
  simp [isPayload_payloadMetric]

lemma upMetric_ne_durationMetric (ns : String) (v d : ℚ) :
    upMetric ns v ≠ durationMetric ns d := by
  simp [upMetric, durationMetric, upHelp, durationHelp]

lemma upMetric_ne_payloadMetric (ns ns' : String) (v : ℚ) (kv : String × ℚ) :
    upMetric ns v ≠ payloadMetric ns' kv := by
  simp [upMetric, payloadMetric]

/-- The five exclusive outcomes of a cycle whose request construction
succeeded, read off the control flow of `collect`. -/
lemma collect_spec (ns : String) (env : CycleEnv) (fetch : FetchResult)
    (h : env.construction = Except.ok fetch) :
    (fetch = FetchResult.transportError ∧
      collect ns env = ([durationMetric ns env.elapsed, upMetric ns 0],
        some CollectError.transportError))
    ∨ (∃ status, fetch = FetchResult.response status (Except.error ()) ∧
      collect ns env = ([durationMetric ns env.elapsed, upMetric ns 1],
        some CollectError.readError))
    ∨ (∃ status body, fetch = FetchResult.response status (Except.ok body) ∧ status ≠ 200 ∧
      collect ns env = ([durationMetric ns env.elapsed, upMetric ns 1],
        some (CollectError.statusError status)))
    ∨ (∃ body, fetch = FetchResult.response 200 (Except.ok body) ∧
      goUnmarshalMap body = Except.error () ∧
      collect ns env = ([durationMetric ns env.elapsed, upMetric ns 1],
        some CollectError.parseError))
    ∨ (∃ body data, fetch = FetchResult.response 200 (Except.ok body) ∧
      goUnmarshalMap body = Except.ok data ∧
      collect ns env = ([durationMetric ns env.elapsed, upMetric ns 1]
        ++ data.map (payloadMetric ns), none)) := by
  cases fetch with
  | transportError =>
    left
    exact ⟨rfl, by simp [collect, h]⟩
  | response status bodyRead =>
    cases bodyRead with
    | error e =>
      right; left
      exact ⟨status, by cases e; exact ⟨rfl, by simp [collect, h]⟩⟩
    | ok body =>
      by_cases hs : status = 200
      · subst hs
        cases hu : goUnmarshalMap body with
        | error e =>
          right; right; right; left
          cases e
          exact ⟨body, rfl, hu, by simp [collect, h, hu]⟩
        | ok data =>
          right; right; right; right
          exact ⟨body, data, rfl, hu, by simp [collect, h, hu]⟩
      · right; right; left
        exact ⟨status, body, rfl, hs, by simp [collect, h, hs]⟩

/-! ### Concrete cycle environments used as test inputs -/

/-- A cycle whose `http.NewRequest` fails (malformed URI). -/
def envConstructionFailure : CycleEnv := ⟨Except.error (), 0⟩

/-- A cycle ending in a transport-level failure after 5 seconds. -/
def envTransport : CycleEnv := ⟨Except.ok FetchResult.transportError, 5⟩

/-- A 200 response whose body is the JSON literal `null`. -/
def envNullBody : CycleEnv :=
  ⟨Except.ok (FetchResult.response 200 (Except.ok (some Json.null))), 1⟩

/-- A 500 response whose body read fails mid-stream. -/
def envReadFail500 : CycleEnv :=
  ⟨Except.ok (FetchResult.response 500 (Except.error ())), 1⟩

/-- A 500 response whose body reads fine. -/
def envStatus500 : CycleEnv :=
  ⟨Except.ok (FetchResult.response 500 (Except.ok (some Json.null))), 1⟩

/-- The JSON object body `{"a.b": 1, "a_b": 2}`: two distinct raw keys that
sanitize to the same identifier. -/
def dupKeysBody : Option Json :=
  some (Json.obj [("a.b", Json.num 1), ("a_b", Json.num 2)])

/-- A 200 response carrying `dupKeysBody`. -/
def envDupKeys : CycleEnv :=
  ⟨Except.ok (FetchResult.response 200 (Except.ok dupKeysBody)), 2⟩

/-! ### Sanitizer lemmas -/

lemma isAllowedChar_sanitizeChar (c : Char) : isAllowedChar (sanitizeChar c) = true := by
  unfold sanitizeChar
  by_cases h : isAllowedChar c
  · simp [h]
  · simp [h]
    decide

lemma sanitizeChar_sanitizeChar (c : Char) : sanitizeChar (sanitizeChar c) = sanitizeChar c := by
  have h := isAllowedChar_sanitizeChar c
  unfold sanitizeChar
  simp [sanitizeChar] at h
  simp [h]

/-! ### Claim theorems -/

/-- C3: `keyToSnake` is total on strings (any input, empty included), keeps
the length, and acts pointwise: position `i` of the output holds the input's
character at `i` when that character lies in `[a-zA-Z0-9:_]`, and holds `_`
otherwise — one underscore per disallowed character, no collapsing, allowed
characters unchanged in place. -/
theorem c3_sanitizer_pointwise (s : String) (i : Nat) :
    (keyToSnake s).data.length = s.data.length
    ∧ (keyToSnake s).data[i]?
      = (s.data[i]?).map (fun c => if isAllowedChar c then c else '_') := by
  constructor
  · simp [keyToSnake]
  · simp only [keyToSnake, List.getElem?_map]
    cases s.data[i]? <;> simp [sanitizeChar]

/-- C4: the key sanitizer is total and idempotent, and its output contains
only characters from `[a-zA-Z0-9:_]`. -/
theorem c4_sanitizer_idempotent (s : String) :
    keyToSnake (keyToSnake s) = keyToSnake s
    ∧ ∀ c ∈ (keyToSnake s).data, isAllowedChar c = true := by
  constructor
  · show String.mk ((s.data.map sanitizeChar).map sanitizeChar) = String.mk (s.data.map sanitizeChar)
    rw [List.map_map]
    exact congrArg String.mk (List.map_congr_left (fun c _ => sanitizeChar_sanitizeChar c))
  · intro c hc
    obtain ⟨c', _, rfl⟩ := List.mem_map.mp hc
    exact isAllowedChar_sanitizeChar c'

/-- Witness for C4 at the key `jvm.memory.used`. -/
theorem c4_sanitizer_idempotent_witness :
    keyToSnake (keyToSnake "jvm.memory.used") = keyToSnake "jvm.memory.used"
    ∧ isAllowedChar '_' = true :=
  ⟨(c4_sanitizer_idempotent "jvm.memory.used").1,
   (c4_sanitizer_idempotent "jvm.memory.used").2 '_' (by decide)⟩

/-- C7: when request construction fails, `collect` returns the error before
anything is sent on the channel: no measurement at all is emitted. -/
theorem c7_construction_failure (ns : String) (env : CycleEnv)
    (h : env.construction = Except.error ()) :
    (collect ns env).1 = [] ∧ (collect ns env).2 = some CollectError.constructionError := by
  simp [collect, h]

/-- Witness for C7 on a concrete failing environment. -/
theorem c7_construction_failure_witness :
    (collect "spring" envConstructionFailure).1 = []
    ∧ (collect "spring" envConstructionFailure).2 = some CollectError.constructionError :=
  c7_construction_failure "spring" envConstructionFailure rfl

/-- C9: a 200 response whose body is the JSON literal `null` produces no
error and exactly the two meta measurements — `json.Unmarshal` accepts `null`
into the map, leaving it empty, even though `null` is not an object literal. -/
theorem c9_null_body (ns : String) (env : CycleEnv)
    (h : env.construction = Except.ok (FetchResult.response 200 (Except.ok (some Json.null)))) :
    (collect ns env).2 = none
    ∧ (collect ns env).1 = [durationMetric ns env.elapsed, upMetric ns 1]
    ∧ ∀ fields, Json.null ≠ Json.obj fields := by
  refine ⟨?_, ?_, ?_⟩
  · simp [collect, h, goUnmarshalMap]
  · simp [collect, h, goUnmarshalMap]
  · intro fields hne
    cases hne

/-- Witness for C9 on a concrete null-body environment. -/
theorem c9_null_body_witness :
    (collect "spring" envNullBody).2 = none
    ∧ (collect "spring" envNullBody).1
      = [durationMetric "spring" envNullBody.elapsed, upMetric "spring" 1]
    ∧ ∀ fields, Json.null ≠ Json.obj fields :=
  c9_null_body "spring" envNullBody rfl

/-- C1 (amended: request construction must succeed — on a construction
failure `collect` returns before sending anything): in every cycle whose
request construction succeeded, exactly one `up` measurement is emitted and
its value is 0 or 1, exactly one `response_duration` measurement is emitted
(even when the cycle fails), and any payload measurement emitted comes from
a cycle that received a 200 response, read the body, and unmarshalled it as
a flat numeric map. -/
theorem c1_measurements_per_cycle (ns : String) (env : CycleEnv) (fetch : FetchResult)
    (h : env.construction = Except.ok fetch) :
    ((collect ns env).1.filter (isUpMeta ns) = [upMetric ns 0]
      ∨ (collect ns env).1.filter (isUpMeta ns) = [upMetric ns 1])
    ∧ (collect ns env).1.filter (isDurationMeta ns) = [durationMetric ns env.elapsed]
    ∧ (∀ m ∈ (collect ns env).1, m.kind = ValueKind.untyped →
        ∃ body data, fetch = FetchResult.response 200 (Except.ok body)
          ∧ goUnmarshalMap body = Except.ok data
          ∧ m ∈ data.map (payloadMetric ns)) := by
  rcases collect_spec ns env fetch h with ⟨hf, hc⟩ | ⟨s, hf, hc⟩ | ⟨s, b, hf, hs, hc⟩
    | ⟨b, hf, hu, hc⟩ | ⟨b, d, hf, hu, hc⟩ <;>
    refine ⟨?_, ?_, ?_⟩
  · left
    simp [hc, List.filter_cons, isUpMeta_durationMetric, isUpMeta_upMetric]
  · simp [hc, List.filter_cons, isDurationMeta_durationMetric, isDurationMeta_upMetric]
  · intro m hm hk
    simp [hc] at hm
    rcases hm with rfl | rfl <;> simp [durationMetric, upMetric] at hk
  · right
    simp [hc, List.filter_cons, isUpMeta_durationMetric, isUpMeta_upMetric]
  · simp [hc, List.filter_cons, isDurationMeta_durationMetric, isDurationMeta_upMetric]
  · intro m hm hk
    simp [hc] at hm
    rcases hm with rfl | rfl <;> simp [durationMetric, upMetric] at hk
  · right
    simp [hc, List.filter_cons, isUpMeta_durationMetric, isUpMeta_upMetric]
  · simp [hc, List.filter_cons, isDurationMeta_durationMetric, isDurationMeta_upMetric]
  · intro m hm hk
    simp [hc] at hm
    rcases hm with rfl | rfl <;> simp [durationMetric, upMetric] at hk
  · right
    simp [hc, List.filter_cons, isUpMeta_durationMetric, isUpMeta_upMetric]
  · simp [hc, List.filter_cons, isDurationMeta_durationMetric, isDurationMeta_upMetric]
  · intro m hm hk
    simp [hc] at hm
    rcases hm with rfl | rfl <;> simp [durationMetric, upMetric] at hk
  · right
    simp [hc, List.filter_append, List.filter_cons, isUpMeta_durationMetric,
      isUpMeta_upMetric, filter_isUpMeta_payload]
  · simp [hc, List.filter_append, List.filter_cons, isDurationMeta_durationMetric,
      isDurationMeta_upMetric, filter_isDurationMeta_payload]
  · intro m hm hk
    simp [hc] at hm
    rcases hm with rfl | rfl | hm
    · simp [durationMetric] at hk
    · simp [upMetric] at hk
    · exact ⟨b, d, hf, hu, List.mem_map.mpr (by simpa using hm)⟩

/-- Counterexample to C1 as stated: a cycle whose request construction fails
(malformed URI) returns a construction error having emitted no measurement at
all, so it does not emit exactly one `up` measurement. -/
theorem c1_counterexample :
    (collect "spring" envConstructionFailure).2 = some CollectError.constructionError
    ∧ ¬ ∃ m ∈ (collect "spring" envConstructionFailure).1, isUpMeta "spring" m = true := by
  decide

/-- Witness for C1 on a concrete transport-failure cycle. -/
theorem c1_witness :
    ((collect "spring" envTransport).1.filter (isUpMeta "spring") = [upMetric "spring" 0]
      ∨ (collect "spring" envTransport).1.filter (isUpMeta "spring") = [upMetric "spring" 1])
    ∧ (collect "spring" envTransport).1.filter (isDurationMeta "spring")
        = [durationMetric "spring" envTransport.elapsed]
    ∧ (∀ m ∈ (collect "spring" envTransport).1, m.kind = ValueKind.untyped →
        ∃ body data, FetchResult.transportError = FetchResult.response 200 (Except.ok body)
          ∧ goUnmarshalMap body = Except.ok data
          ∧ m ∈ data.map (payloadMetric "spring")) :=
  c1_measurements_per_cycle "spring" envTransport FetchResult.transportError rfl

/-- C2: in every cycle whose request construction succeeded, the `up`
measurement carries value 1 exactly when a response (of any status) was
received, and carries value 0 exactly when the fetch failed at the transport
level. -/
theorem c2_up_semantics (ns : String) (env : CycleEnv) (fetch : FetchResult)
    (h : env.construction = Except.ok fetch) :
    ((upMetric ns 1 ∈ (collect ns env).1)
      ↔ ∃ status bodyRead, fetch = FetchResult.response status bodyRead)
    ∧ ((upMetric ns 0 ∈ (collect ns env).1) ↔ fetch = FetchResult.transportError) := by
  rcases collect_spec ns env fetch h with ⟨hf, hc⟩ | ⟨s, hf, hc⟩ | ⟨s, b, hf, hs, hc⟩
    | ⟨b, hf, hu, hc⟩ | ⟨b, d, hf, hu, hc⟩ <;> subst hf <;> constructor <;>
    simp [hc, upMetric, durationMetric, payloadMetric, upHelp, durationHelp,
      List.mem_append, List.mem_map]

/-- Witness for C2 on a concrete 200-response cycle. -/
theorem c2_witness :
    ((upMetric "spring" 1 ∈ (collect "spring" envNullBody).1)
      ↔ ∃ status bodyRead, FetchResult.response 200 (Except.ok (some Json.null))
          = FetchResult.response status bodyRead)
    ∧ ((upMetric "spring" 0 ∈ (collect "spring" envNullBody).1)
      ↔ FetchResult.response 200 (Except.ok (some Json.null)) = FetchResult.transportError) :=
  c2_up_semantics "spring" envNullBody (FetchResult.response 200 (Except.ok (some Json.null))) rfl

/-- C5 (amended: in the source the body read comes first — `ioutil.ReadAll`
at line 95 precedes the status check at line 100): after a response is
received, a body-read failure is surfaced as a read error regardless of the
status code, the status-mismatch error is surfaced only when the body read
succeeded, and neither path emits payload measurements; in particular a
non-200 response whose body read fails yields the read error, not the
status-mismatch error. -/
theorem c5_read_precedes_status (ns : String) (env : CycleEnv) (status : Nat) :
    (env.construction = Except.ok (FetchResult.response status (Except.error ())) →
      (collect ns env).2 = some CollectError.readError
        ∧ (collect ns env).1.filter isPayload = [])
    ∧ (∀ body, env.construction = Except.ok (FetchResult.response status (Except.ok body)) →
        status ≠ 200 →
        (collect ns env).2 = some (CollectError.statusError status)
          ∧ (collect ns env).1.filter isPayload = []) := by
  constructor
  · intro h
    constructor
    · simp [collect, h]
    · simp [collect, h, List.filter_cons, isPayload_durationMetric, isPayload_upMetric]
  · intro body h hs
    constructor
    · simp [collect, h, hs]
    · simp [collect, h, hs, List.filter_cons, isPayload_durationMetric, isPayload_upMetric]

/-- Counterexample to C5 as stated: a 500 response whose body read fails
yields the read error, not the status-mismatch error the claim requires. -/
theorem c5_counterexample :
    (collect "spring" envReadFail500).2 = some CollectError.readError
    ∧ (collect "spring" envReadFail500).2 ≠ some (CollectError.statusError 500) := by
  decide

/-- Witness for C5 on a concrete 500 response with a readable body. -/
theorem c5_witness :
    (collect "spring" envStatus500).2 = some (CollectError.statusError 500)
    ∧ (collect "spring" envStatus500).1.filter isPayload = [] :=
  (c5_read_precedes_status "spring" envStatus500 500).2 (some Json.null) rfl (by decide)

/-- C6: in every cycle whose request construction succeeded, the channel
receives the `response_duration` measurement first, the `up` measurement
second, and payload measurements (if any) only after both. -/
theorem c6_emission_order (ns : String) (env : CycleEnv) (fetch : FetchResult)
    (h : env.construction = Except.ok fetch) :
    ∃ v rest, (collect ns env).1
        = durationMetric ns env.elapsed :: upMetric ns v :: rest
      ∧ ∀ m ∈ rest, isPayload m = true := by
  rcases collect_spec ns env fetch h with ⟨hf, hc⟩ | ⟨s, hf, hc⟩ | ⟨s, b, hf, hs, hc⟩
    | ⟨b, hf, hu, hc⟩ | ⟨b, d, hf, hu, hc⟩
  · exact ⟨0, [], by simp [hc]⟩
  · exact ⟨1, [], by simp [hc]⟩
  · exact ⟨1, [], by simp [hc]⟩
  · exact ⟨1, [], by simp [hc]⟩
  · refine ⟨1, d.map (payloadMetric ns), by simp [hc], ?_⟩
    intro m hm
    obtain ⟨kv, _, rfl⟩ := List.mem_map.mp hm
    exact isPayload_payloadMetric ns kv

/-- Witness for C6 on a concrete successful cycle with payload. -/
theorem c6_witness :
    ∃ v rest, (collect "spring" envDupKeys).1
        = durationMetric "spring" envDupKeys.elapsed :: upMetric "spring" v :: rest
      ∧ ∀ m ∈ rest, isPayload m = true :=
  c6_emission_order "spring" envDupKeys
    (FetchResult.response 200 (Except.ok dupKeysBody)) rfl

/-- C10: for every successfully parsed payload the emitted payload
measurements are exactly one per raw key of the decoded map, in map order,
with no deduplication; concretely, the body `{"a.b": 1, "a_b": 2}` with
namespace `spring` emits two payload measurements both named `spring_a_b`
even though the raw keys differ. -/
theorem c10_per_key_no_dedup :
    (∀ (ns : String) (env : CycleEnv) (body : Option Json) (data : List (String × ℚ)),
      env.construction = Except.ok (FetchResult.response 200 (Except.ok body)) →
      goUnmarshalMap body = Except.ok data →
      (collect ns env).1.filter isPayload = data.map (payloadMetric ns))
    ∧ ((collect "spring" envDupKeys).1.filter isPayload).map Metric.name
        = ["spring_a_b", "spring_a_b"]
    ∧ ("a.b" : String) ≠ "a_b" := by
  refine ⟨?_, by decide, by decide⟩
  intro ns env body data h hu
  simp [collect, h, hu, List.filter_cons, List.filter_append,
    isPayload_durationMetric, isPayload_upMetric, filter_isPayload_payload]

/-- Witness for C10 on the duplicate-key body. -/
theorem c10_witness :
    (collect "spring" envDupKeys).1.filter isPayload
      = [(("a.b" : String), (1 : ℚ)), ("a_b", 2)].map (payloadMetric "spring") :=
  c10_per_key_no_dedup.1 "spring" envDupKeys dupKeysBody [("a.b", 1), ("a_b", 2)] rfl rfl

end spring
